import Mathlib

/-!
# Verification of the vehicles-api repository

A shallow embedding of the Go service `Candoo/vehicles-api`:
the vehicle data model (`internal/models`), the repository layer
(`internal/repository/vehicle.go`), the HTTP handler layer
(`internal/handlers/vehicle.go`) and the seeder
(`internal/database/seed.go`).

The relational store is modelled as a list of rows together with
error-injection flags, one per store operation the Go code performs:
a flag set means that store call reports an error.  Query construction
via GORM is modelled denotationally: the chain of `Where` clauses
becomes a boolean row predicate, `Order("vehicle_id ASC")` becomes a
stable sort by the external source id, `Limit`/`Offset` become
`take`/`drop`.
-/

namespace VehiclesApi

/-- One persisted vehicle listing (`models.Vehicle`).  Only the columns
that the repository layer reads are carried: the internal primary key
`id`, the external source id `vehicleID`, the filterable text columns,
and the text-typed `price` and `year` columns. -/
structure Vehicle where
  id : Nat
  vehicleID : Int
  advertClassification : String
  make : String
  model : String
  fuelType : String
  transmission : String
  bodyType : String
  price : String
  year : String
  vrm : String
deriving Repr, DecidableEq

/-- Filtering options for vehicle queries (`models.VehicleFilters`).
`page` and `resultsPerPage` are Go `int`s, hence `Int`. -/
structure VehicleFilters where
  page : Int
  resultsPerPage : Int
  advertClassification : String
  make : String
  model : String
  fuelType : String
  transmission : String
  bodyType : String
  minPrice : String
  maxPrice : String
  minYear : String
  maxYear : String
deriving Repr, DecidableEq

/-- Pagination metadata (`models.ResponseMetadata`).  Counts are
modelled as `Nat` (they arise as list lengths); the page numbers keep
the Go `int` type `Int`. -/
structure ResponseMetadata where
  currentPage : Int
  lastPage : Nat
  perPage : Int
  total : Nat
  allTotal : Nat
  totalNewVehicles : Nat
  totalUsedVehicles : Nat
  offerVehicles : Nat
deriving Repr, DecidableEq

/-- The relational store: its rows plus one error-injection flag per
store call made by the repository layer.  A set flag makes the
corresponding call report an error, exactly where the Go code receives
a non-nil `.Error`. -/
structure Store where
  rows : List Vehicle
  countErr : Bool
  fetchErr : Bool
  allTotalErr : Bool
  totalNewErr : Bool
  totalUsedErr : Bool
  lookupErr : Bool
deriving Repr, DecidableEq

/-- Go `strings.ToLower` / SQL `LOWER`: lowercase the basic latin
letters of a string (the store data and filters are ASCII). -/
def lowerStr (s : String) : String := ⟨s.data.map Char.toLower⟩

/-- SQL `CAST(<text> AS INTEGER)` over the text-typed `price`/`year`
columns, as used in `GetVehicles`: an optional sign followed by the
longest digit prefix, i.e. the integral part of a decimal-formatted
numeral (so `"4799.00"` casts to `4799`). -/
def castToInt (s : String) : Int :=
  let digits : List Char → Nat :=
    fun cs => (cs.takeWhile Char.isDigit).foldl (fun acc c => acc * 10 + (c.toNat - 48)) 0
  match s.data with
  | '-' :: cs => -(Int.ofNat (digits cs))
  | '+' :: cs => Int.ofNat (digits cs)
  | cs => Int.ofNat (digits cs)

/-- The row predicate assembled by the `Where` chain of
`GetVehicles` (repository/vehicle.go lines 29-68): one conjunct per
conditionally added clause, in source order. -/
def vehicleMatches (f : VehicleFilters) (v : Vehicle) : Bool :=
  (if f.advertClassification ≠ "" ∧ lowerStr f.advertClassification ≠ "all" then
      lowerStr v.advertClassification == lowerStr f.advertClassification
    else true)
  && (if f.make ≠ "" then lowerStr v.make == lowerStr f.make else true)
  && (if f.model ≠ "" then
        decide ((lowerStr f.model).data <:+: (lowerStr v.model).data)
      else true)
  && (if f.fuelType ≠ "" then lowerStr v.fuelType == lowerStr f.fuelType else true)
  && (if f.transmission ≠ "" then lowerStr v.transmission == lowerStr f.transmission else true)
  && (if f.bodyType ≠ "" then lowerStr v.bodyType == lowerStr f.bodyType else true)
  && (if f.minPrice ≠ "" ∧ f.minPrice ≠ "0" then
        decide (castToInt v.price ≥ castToInt f.minPrice)
      else true)
  && (if f.maxPrice ≠ "" ∧ f.maxPrice ≠ "0" then
        decide (castToInt v.price ≤ castToInt f.maxPrice)
      else true)
  && (if f.minYear ≠ "" ∧ f.minYear ≠ "0" then
        decide (castToInt v.year ≥ castToInt f.minYear)
      else true)
  && (if f.maxYear ≠ "" ∧ f.maxYear ≠ "0" then
        decide (castToInt v.year ≤ castToInt f.maxYear)
      else true)

/-- `Order("vehicle_id ASC")`: sort by the external source id. -/
def sortByVehicleId (xs : List Vehicle) : List Vehicle :=
  xs.insertionSort (fun a b => a.vehicleID ≤ b.vehicleID)

/-- Default substitution for `page` (repository/vehicle.go lines 76-78). -/
def effectivePage (f : VehicleFilters) : Int :=
  if f.page < 1 then 1 else f.page

/-- Default substitution for `resultsPerPage` (lines 79-81). -/
def effectivePerPage (f : VehicleFilters) : Int :=
  if f.resultsPerPage < 1 then 10 else f.resultsPerPage

/-- Reduce an integer to the signed 64-bit value Go's `int` arithmetic
produces: two's-complement wrap-around into `[-2^63, 2^63)`. -/
def wrap64 (n : Int) : Int :=
  (n + 2 ^ 63) % 2 ^ 64 - 2 ^ 63

/-- `offset := (filters.Page - 1) * filters.ResultsPerPage` (line 84),
computed after the default substitutions.  Go evaluates both the
subtraction and the multiplication in wrapping 64-bit `int`
arithmetic, so a large `page * resultsPerPage` product wraps — possibly
to a negative offset. -/
def pageOffset (f : VehicleFilters) : Int :=
  wrap64 (wrap64 (effectivePage f - 1) * effectivePerPage f)

/-- `lastPage := total / perPage; if total % perPage > 0 { lastPage++ }`
(lines 96-99). -/
def lastPageCalc (total perPage : Nat) : Nat :=
  total / perPage + (if total % perPage > 0 then 1 else 0)

/-- Rows whose classification is (case-insensitively) `"new"` (line 104). -/
def countNew (rows : List Vehicle) : Nat :=
  (rows.filter (fun v => lowerStr v.advertClassification == "new")).length

/-- Rows whose classification is (case-insensitively) `"used"` (line 105). -/
def countUsed (rows : List Vehicle) : Nat :=
  (rows.filter (fun v => lowerStr v.advertClassification == "used")).length

/-- `GetVehicles` (repository/vehicle.go lines 22-121).  The count and
fetch store calls have their errors checked and propagated; the three
aggregate `Count` calls (lines 103-105) have their errors dropped on
the floor by the Go code, leaving the Go zero value `0` in the
aggregate variable, which is what the injected flags reproduce.
GORM emits an `OFFSET` clause only for a positive offset — a negative
(wrapped) offset drops the clause — which `Int.toNat`'s clamping of
negatives to `0` reproduces. -/
def getVehicles (st : Store) (f : VehicleFilters) :
    Except String (List Vehicle × ResponseMetadata) :=
  let matching := st.rows.filter (vehicleMatches f)
  if st.countErr then .error "failed to count vehicles"
  else
    let total := matching.length
    if st.fetchErr then .error "failed to fetch vehicles"
    else
      let vehicles :=
        ((sortByVehicleId matching).drop (pageOffset f).toNat).take (effectivePerPage f).toNat
      let lastPage := lastPageCalc total (effectivePerPage f).toNat
      let allTotal := if st.allTotalErr then 0 else st.rows.length
      let totalNew := if st.totalNewErr then 0 else countNew st.rows
      let totalUsed := if st.totalUsedErr then 0 else countUsed st.rows
      .ok (vehicles,
        { currentPage := effectivePage f
          lastPage := lastPage
          perPage := effectivePerPage f
          total := total
          allTotal := allTotal
          totalNewVehicles := totalNew
          totalUsedVehicles := totalUsed
          offerVehicles := 0 })

/-- Rows sorted by the internal primary key: GORM's `First` orders by
the primary key before taking the first row. -/
def sortById (xs : List Vehicle) : List Vehicle :=
  xs.insertionSort (fun a b => a.id ≤ b.id)

/-- `GetVehicleByID` (repository/vehicle.go lines 124-135):
`db.First(&vehicle, id)`; zero rows yield GORM's
`ErrRecordNotFound`, mapped to the `"vehicle not found"` error, any
other store error to `"failed to fetch vehicle"`. -/
def getVehicleByID (st : Store) (id : Nat) : Except String Vehicle :=
  if st.lookupErr then .error "failed to fetch vehicle"
  else
    match (sortById st.rows).find? (fun v => v.id == id) with
    | some v => .ok v
    | none => .error "vehicle not found"

/-- `GetVehicleByVRM` (repository/vehicle.go lines 138-149):
`Where("LOWER(vrm) = ?", strings.ToLower(vrm)).First(...)`. -/
def getVehicleByVRM (st : Store) (vrm : String) : Except String Vehicle :=
  if st.lookupErr then .error "failed to fetch vehicle"
  else
    match (sortById st.rows).find? (fun v => lowerStr v.vrm == lowerStr vrm) with
    | some v => .ok v
    | none => .error "vehicle not found"

/-! ## Handler layer (`internal/handlers/vehicle.go`) -/

/-- `c.Query(key)`: the first value bound to `key` in the request's
query parameters, or `""` when the key is absent. -/
def queryLookup (params : List (String × String)) (key : String) : String :=
  match params.find? (fun p => p.1 == key) with
  | some p => p.2
  | none => ""

/-- Go's `strconv.Atoi`: an optional sign followed by one or more
digits, the whole string; values outside the 64-bit `int` range report
`ErrRange`, hence `none`. -/
def goAtoi (s : String) : Option Int :=
  let digits : List Char → Option Nat := fun cs =>
    if cs ≠ [] ∧ cs.all Char.isDigit then
      some (cs.foldl (fun acc c => acc * 10 + (c.toNat - 48)) 0)
    else none
  let signed : Option Int :=
    match s.data with
    | '-' :: cs => (digits cs).map (fun n => -(Int.ofNat n))
    | '+' :: cs => (digits cs).map (fun n => Int.ofNat n)
    | cs => (digits cs).map (fun n => Int.ofNat n)
  match signed with
  | some n => if n < -(2 ^ 63) ∨ n ≥ 2 ^ 63 then none else some n
  | none => none

/-- `parseIntQuery` (handlers/vehicle.go lines 219-231): empty or
unparseable input silently falls back to the default. -/
def parseIntQuery (params : List (String × String)) (key : String) (defaultValue : Int) : Int :=
  let valueStr := queryLookup params key
  if valueStr == "" then defaultValue
  else
    match goAtoi valueStr with
    | some value => value
    | none => defaultValue

/-- The filter struct the list handler builds from the query string
(handlers/vehicle.go lines 46-59). -/
def filtersFromQuery (params : List (String × String)) : VehicleFilters :=
  { page := parseIntQuery params "page" 1
    resultsPerPage := parseIntQuery params "results_per_page" 10
    advertClassification := queryLookup params "advert_classification"
    make := queryLookup params "make"
    model := queryLookup params "model"
    fuelType := queryLookup params "fuel_type"
    transmission := queryLookup params "transmission"
    bodyType := queryLookup params "body_type"
    minPrice := queryLookup params "min_price"
    maxPrice := queryLookup params "max_price"
    minYear := queryLookup params "min_year"
    maxYear := queryLookup params "max_year" }

/-- A handler's JSON reply: the HTTP status is determined by the
constructor (200 / 400 / 500). -/
inductive HandlerResult where
  | ok (data : List Vehicle) (meta : ResponseMetadata)
  | badRequest (msg : String)
  | serverError (msg : String)
deriving Repr, DecidableEq

/-- HTTP status code of a handler reply. -/
def statusOf : HandlerResult → Nat
  | .ok _ _ => 200
  | .badRequest _ => 400
  | .serverError _ => 500

/-- The list handler `GetVehicles` (handlers/vehicle.go lines 44-90):
parse, validate `page ≥ 1` and `1 ≤ results_per_page ≤ 100`, then call
the repository. -/
def getVehiclesHandler (st : Store) (params : List (String × String)) : HandlerResult :=
  let filters := filtersFromQuery params
  if filters.page < 1 then .badRequest "page must be greater than 0"
  else if filters.resultsPerPage < 1 ∨ filters.resultsPerPage > 100 then
    .badRequest "results_per_page must be between 1 and 100"
  else
    match getVehicles st filters with
    | .error _ => .serverError "failed to fetch vehicles"
    | .ok (vehicles, metadata) => .ok vehicles metadata

/-! ## Seeder (`internal/database/seed.go`) -/

/-- Outcome of a completed seeding run: the store rows afterwards, how
many rows were inserted, and whether the JSON fixture file was read. -/
structure SeedOutcome where
  rows : List Vehicle
  inserted : Nat
  fixtureRead : Bool
deriving Repr, DecidableEq

/-- `SeedDatabase` (database/seed.go lines 15-53): count the existing
rows (propagating a count error); skip entirely when the store is
non-empty; otherwise read the fixture (propagating a load failure) and
insert every fixture record.  The batch loop of lines 36-49 appends
the fixture records in order; its insert stage is modelled error-free,
which is the only path the claims exercise. -/
def SeedDatabase (rows : List Vehicle) (countErr : Bool)
    (fixture : Except String (List Vehicle)) : Except String SeedOutcome :=
  if countErr then .error "failed to count vehicles"
  else if rows.length > 0 then .ok ⟨rows, 0, false⟩
  else
    match fixture with
    | .error e => .error ("failed to load vehicle data: " ++ e)
    | .ok vs => .ok ⟨rows ++ vs, vs.length, true⟩

/-! ## Spec-side predicates

These restate, in the specification's words, what a row must satisfy
to match a filter request; the claims compare them with the
source-derived `vehicleMatches`. -/

/-- Spec wording for the six string-valued filter fields:
classification (unless absent or `"all"`), exact case-insensitive
match on make / fuel type / transmission / body type, case-insensitive
substring containment on model; an absent (empty) field imposes no
constraint. -/
def specFieldMatch (f : VehicleFilters) (v : Vehicle) : Prop :=
  (f.advertClassification = "" ∨ lowerStr f.advertClassification = "all" ∨
      lowerStr v.advertClassification = lowerStr f.advertClassification)
  ∧ (f.make = "" ∨ lowerStr v.make = lowerStr f.make)
  ∧ (f.model = "" ∨ (lowerStr f.model).data <:+: (lowerStr v.model).data)
  ∧ (f.fuelType = "" ∨ lowerStr v.fuelType = lowerStr f.fuelType)
  ∧ (f.transmission = "" ∨ lowerStr v.transmission = lowerStr f.transmission)
  ∧ (f.bodyType = "" ∨ lowerStr v.bodyType = lowerStr f.bodyType)

/-- Spec wording for the four bound fields: `""` and `"0"` mean unset,
otherwise the stored text is cast to an integer and compared, min
inclusive and max inclusive. -/
def specBoundsMatch (f : VehicleFilters) (v : Vehicle) : Prop :=
  ((f.minPrice = "" ∨ f.minPrice = "0") ∨ castToInt v.price ≥ castToInt f.minPrice)
  ∧ ((f.maxPrice = "" ∨ f.maxPrice = "0") ∨ castToInt v.price ≤ castToInt f.maxPrice)
  ∧ ((f.minYear = "" ∨ f.minYear = "0") ∨ castToInt v.year ≥ castToInt f.minYear)
  ∧ ((f.maxYear = "" ∨ f.maxYear = "0") ∨ castToInt v.year ≤ castToInt f.maxYear)

/-- The four bound fields of a request are all unset. -/
def boundsUnset (f : VehicleFilters) : Prop :=
  (f.minPrice = "" ∨ f.minPrice = "0") ∧ (f.maxPrice = "" ∨ f.maxPrice = "0")
  ∧ (f.minYear = "" ∨ f.minYear = "0") ∧ (f.maxYear = "" ∨ f.maxYear = "0")

/-- Success test for repository results. -/
def exceptIsOk {ε α : Type} : Except ε α → Bool
  | .ok _ => true
  | .error _ => false

/-! ## Concrete fixtures used to exercise the theorems -/

/-- A new Skoda Fabia; internal id 1, external source id 20. -/
def demoV1 : Vehicle :=
  ⟨1, 20, "New", "Skoda", "Fabia", "Petrol", "Manual", "Hatchback", "15000", "2021", "AA11AAA"⟩

/-- A used Kia Ceed; internal id 2, external source id 10. -/
def demoV2 : Vehicle :=
  ⟨2, 10, "Used", "Kia", "Ceed", "Diesel", "Manual", "Estate", "9000", "2018", "BB22BBB"⟩

/-- A used Skoda Octavia; internal id 3, external source id 30. -/
def demoV3 : Vehicle :=
  ⟨3, 30, "Used", "Skoda", "Octavia", "Diesel", "Auto", "Estate", "12000", "2019", "CC33CCC"⟩

/-- A three-row store with no injected store errors. -/
def demoStore : Store := ⟨[demoV1, demoV2, demoV3], false, false, false, false, false, false⟩

/-- The all-defaults filter request: page 1, ten per page, no predicates. -/
def noFilters : VehicleFilters := ⟨1, 10, "", "", "", "", "", "", "", "", "", ""⟩

/-- Page 1 with two results per page, no predicates. -/
def pagedFilters : VehicleFilters := ⟨1, 2, "", "", "", "", "", "", "", "", "", ""⟩

/-- A request that only bounds the price: min 5000, max 10000. -/
def priceFilter : VehicleFilters := ⟨1, 10, "", "", "", "", "", "", "5000", "10000", "", ""⟩

/-- A record priced `"4799.00"`. -/
def cheapVehicle : Vehicle :=
  ⟨4, 40, "Used", "Skoda", "Fabia", "Petrol", "Manual", "Hatchback", "4799.00", "2015", "DD44DDD"⟩

/-- A record priced `"7500.00"`. -/
def midVehicle : Vehicle :=
  ⟨5, 50, "Used", "Skoda", "Octavia", "Diesel", "Manual", "Estate", "7500.00", "2018", "EE55EEE"⟩

/-- A request with out-of-range pagination values that bypass the
handler's validation: page `-5`, zero results per page. -/
def badFilters : VehicleFilters := ⟨-5, 0, "", "", "", "", "", "", "", "", "", ""⟩

/-- A request that passes handler validation (`page ≥ 1`,
`results_per_page` in `[1, 100]`) yet overflows the 64-bit offset
multiplication: `(2^57 + 1 − 1) · 100 = 100·2^57 > 2^63 − 1`. -/
def hugeFilters : VehicleFilters :=
  ⟨2 ^ 57 + 1, 100, "", "", "", "", "", "", "", "", "", ""⟩

/-- A one-row store whose `allTotal` aggregate count call errors. -/
def aggErrStore : Store := ⟨[demoV1], false, false, true, false, false, false⟩

/-- A one-row store whose count call errors. -/
def countErrStore : Store := ⟨[demoV1], true, false, false, false, false, false⟩

/-- The metadata `getVehicles` produces for `demoStore` under
`pagedFilters`: three matches, two per page, so last page 2; one
new and two used rows. -/
def pagedMeta : ResponseMetadata := ⟨1, 2, 2, 3, 3, 1, 2, 0⟩

/-- The first page of `demoStore` under `pagedFilters`, ordered by
external source id: ids 10 then 20. -/
def pagedData : List Vehicle := [demoV2, demoV1]

/-! ## Helper lemmas -/

lemma if_guard_eq_true {c : Prop} [Decidable c] {b : Bool} :
    ((if c then b else true) = true) ↔ (c → b = true) := by
  split <;> simp_all

lemma or3_of_imp {p q r : Prop} (h : ¬p ∧ ¬q → r) : p ∨ q ∨ r := by tauto

lemma or2_of_imp {p r : Prop} (h : ¬p → r) : p ∨ r := by tauto

lemma orp_of_imp {p q r : Prop} (h : ¬p ∧ ¬q → r) : (p ∨ q) ∨ r := by tauto

lemma imp_of_or3 {p q r : Prop} (h : p ∨ q ∨ r) : ¬p ∧ ¬q → r := by tauto

lemma imp_of_or2 {p r : Prop} (h : p ∨ r) : ¬p → r := by tauto

lemma imp_of_orp {p q r : Prop} (h : (p ∨ q) ∨ r) : ¬p ∧ ¬q → r := by tauto

/-- The `Where` chain of `GetVehicles` matches a row exactly when the
spec-side predicates hold. -/
lemma vehicleMatches_iff (f : VehicleFilters) (v : Vehicle) :
    vehicleMatches f v = true ↔ (specFieldMatch f v ∧ specBoundsMatch f v) := by
  unfold vehicleMatches specFieldMatch specBoundsMatch
  simp only [Bool.and_eq_true, if_guard_eq_true, beq_iff_eq, decide_eq_true_eq, ge_iff_le]
  constructor
  · rintro ⟨⟨⟨⟨⟨⟨⟨⟨⟨h1, h2⟩, h3⟩, h4⟩, h5⟩, h6⟩, h7⟩, h8⟩, h9⟩, h10⟩
    exact ⟨⟨or3_of_imp h1, or2_of_imp h2, or2_of_imp h3, or2_of_imp h4,
        or2_of_imp h5, or2_of_imp h6⟩,
      orp_of_imp h7, orp_of_imp h8, orp_of_imp h9, orp_of_imp h10⟩
  · rintro ⟨⟨h1, h2, h3, h4, h5, h6⟩, h7, h8, h9, h10⟩
    exact ⟨⟨⟨⟨⟨⟨⟨⟨⟨imp_of_or3 h1, imp_of_or2 h2⟩, imp_of_or2 h3⟩, imp_of_or2 h4⟩,
        imp_of_or2 h5⟩, imp_of_or2 h6⟩,
      imp_of_orp h7⟩, imp_of_orp h8⟩, imp_of_orp h9⟩, imp_of_orp h10⟩

lemma effectivePage_of_ge {f : VehicleFilters} (h : 1 ≤ f.page) :
    effectivePage f = f.page := by
  unfold effectivePage
  rw [if_neg (by omega)]

lemma effectivePerPage_of_ge {f : VehicleFilters} (h : 1 ≤ f.resultsPerPage) :
    effectivePerPage f = f.resultsPerPage := by
  unfold effectivePerPage
  rw [if_neg (by omega)]

/-- Wrapping is the identity on values already in the signed 64-bit
range. -/
lemma wrap64_eq_self {n : Int} (h1 : -(2 ^ 63) ≤ n) (h2 : n ≤ 2 ^ 63 - 1) :
    wrap64 n = n := by
  unfold wrap64
  omega

/-- When the offset product fits in a signed 64-bit int, the wrapped
offset is the mathematical product of the effective values. -/
lemma pageOffset_eq_of_small (f : VehicleFilters)
    (hm : (effectivePage f - 1) * effectivePerPage f ≤ 2 ^ 63 - 1) :
    pageOffset f = (effectivePage f - 1) * effectivePerPage f := by
  have h1 : 1 ≤ effectivePage f := by unfold effectivePage; split <;> omega
  have h2 : 1 ≤ effectivePerPage f := by unfold effectivePerPage; split <;> omega
  have h0 : 0 ≤ effectivePage f - 1 := by omega
  have hle : effectivePage f - 1 ≤ (effectivePage f - 1) * effectivePerPage f :=
    le_mul_of_one_le_right h0 h2
  have hprod : 0 ≤ (effectivePage f - 1) * effectivePerPage f :=
    mul_nonneg h0 (by omega)
  have hinner : wrap64 (effectivePage f - 1) = effectivePage f - 1 :=
    wrap64_eq_self (by omega) (by omega)
  unfold pageOffset
  rw [hinner, wrap64_eq_self (by omega) (by omega)]

/-- The same, phrased on the raw filter fields under the handler-side
bounds. -/
lemma pageOffset_eq {f : VehicleFilters} (hp : 1 ≤ f.page)
    (hr : 1 ≤ f.resultsPerPage)
    (hm : (f.page - 1) * f.resultsPerPage ≤ 2 ^ 63 - 1) :
    pageOffset f = (f.page - 1) * f.resultsPerPage := by
  have hep := effectivePage_of_ge hp
  have hepp := effectivePerPage_of_ge hr
  rw [pageOffset_eq_of_small f (by rw [hep, hepp]; exact hm), hep, hepp]

/-- Unpack a successful `getVehicles` run into its components. -/
lemma getVehicles_ok {st : Store} {f : VehicleFilters} {vs : List Vehicle}
    {md : ResponseMetadata} (h : getVehicles st f = .ok (vs, md)) :
    st.countErr = false ∧ st.fetchErr = false
    ∧ vs = ((sortByVehicleId (st.rows.filter (vehicleMatches f))).drop
        (pageOffset f).toNat).take (effectivePerPage f).toNat
    ∧ md = { currentPage := effectivePage f
             lastPage := lastPageCalc (st.rows.filter (vehicleMatches f)).length
                (effectivePerPage f).toNat
             perPage := effectivePerPage f
             total := (st.rows.filter (vehicleMatches f)).length
             allTotal := if st.allTotalErr then 0 else st.rows.length
             totalNewVehicles := if st.totalNewErr then 0 else countNew st.rows
             totalUsedVehicles := if st.totalUsedErr then 0 else countUsed st.rows
             offerVehicles := 0 } := by
  unfold getVehicles at h
  by_cases hc : st.countErr = true
  · simp [hc] at h
  · by_cases hf : st.fetchErr = true
    · simp [hc, hf] at h
    · simp only [Bool.not_eq_true] at hc hf
      simp [hc, hf, Except.ok.injEq, Prod.mk.injEq] at h
      exact ⟨hc, hf, h.1.symm, h.2.symm⟩

/-- Two disjoint predicates count at most the whole list, exactly the
whole list when every element satisfies one of them. -/
lemma countP_disjoint {α : Type} (p q : α → Bool)
    (hpq : ∀ a, ¬(p a = true ∧ q a = true)) (l : List α) :
    l.countP p + l.countP q ≤ l.length
    ∧ (l.countP p + l.countP q = l.length ↔ ∀ a ∈ l, p a = true ∨ q a = true) := by
  induction l with
  | nil => simp
  | cons a l ih =>
    obtain ⟨ih1, ih2⟩ := ih
    rw [List.countP_cons, List.countP_cons, List.length_cons]
    by_cases hp : p a = true
    · have hq : ¬ q a = true := fun hq => hpq a ⟨hp, hq⟩
      rw [if_pos hp, if_neg hq]
      simp only [List.mem_cons]
      constructor
      · omega
      · constructor
        · intro h
          rintro x (rfl | hx)
          · exact Or.inl hp
          · exact (ih2.mp (by omega)) x hx
        · intro h
          have := ih2.mpr (fun x hx => h x (Or.inr hx))
          omega
    · by_cases hq : q a = true
      · rw [if_neg hp, if_pos hq]
        simp only [List.mem_cons]
        constructor
        · omega
        · constructor
          · intro h
            rintro x (rfl | hx)
            · exact Or.inr hq
            · exact (ih2.mp (by omega)) x hx
          · intro h
            have := ih2.mpr (fun x hx => h x (Or.inr hx))
            omega
      · rw [if_neg hp, if_neg hq]
        simp only [List.mem_cons]
        constructor
        · omega
        · constructor
          · intro h
            omega
          · intro h
            exact absurd (h a (Or.inl rfl)) (by simp [hp, hq])

/-- A row's classification cannot be both `"new"` and `"used"`. -/
lemma newUsed_disjoint (v : Vehicle) :
    ¬((lowerStr v.advertClassification == "new") = true
      ∧ (lowerStr v.advertClassification == "used") = true) := by
  rintro ⟨h1, h2⟩
  rw [beq_iff_eq] at h1 h2
  rw [h1] at h2
  exact absurd h2 (by decide)

/-- The new/used subtotals of a row list: at most the row count, equal
exactly when every row is classified new or used. -/
lemma newUsed_partition (rows : List Vehicle) :
    countNew rows + countUsed rows ≤ rows.length
    ∧ (countNew rows + countUsed rows = rows.length ↔
        ∀ v ∈ rows, lowerStr v.advertClassification = "new"
          ∨ lowerStr v.advertClassification = "used") := by
  have h := countP_disjoint (fun v => lowerStr v.advertClassification == "new")
    (fun v => lowerStr v.advertClassification == "used") newUsed_disjoint rows
  rw [countNew, countUsed, ← List.countP_eq_length_filter, ← List.countP_eq_length_filter]
  simpa [beq_iff_eq] using h

/-- If filtering a list leaves the single element `v`, then `find?`
returns `v`. -/
lemma find?_of_filter_singleton {α : Type} {p : α → Bool} {l : List α} {v : α}
    (h : l.filter p = [v]) : l.find? p = some v := by
  induction l with
  | nil => simp at h
  | cons a l ih =>
    by_cases hp : p a = true
    · rw [List.filter_cons_of_pos hp] at h
      rw [List.find?_cons_of_pos l hp]
      exact congrArg some (List.cons.inj h).1
    · rw [List.filter_cons_of_neg hp] at h
      rw [List.find?_cons_of_neg l hp]
      exact ih h

/-- Filtering is invariant under permutation of the input, stated for
the singleton result used by the lookup claims. -/
lemma filter_singleton_of_perm {α : Type} {p : α → Bool} {l l' : List α} {v : α}
    (hperm : l'.Perm l) (h : l.filter p = [v]) : l'.filter p = [v] := by
  have := (hperm.filter p).trans (by rw [h])
  exact List.Perm.eq_singleton this

/-- `sortById` permutes its input. -/
lemma sortById_perm (xs : List Vehicle) : (sortById xs).Perm xs :=
  List.perm_insertionSort _ xs

/-- `sortByVehicleId` permutes its input. -/
lemma sortByVehicleId_perm (xs : List Vehicle) : (sortByVehicleId xs).Perm xs :=
  List.perm_insertionSort _ xs

/-- `sortByVehicleId` sorts ascending by the external source id. -/
lemma sortByVehicleId_sorted (xs : List Vehicle) :
    (sortByVehicleId xs).Pairwise (fun a b => a.vehicleID ≤ b.vehicleID) := by
  haveI : IsTotal Vehicle (fun a b => a.vehicleID ≤ b.vehicleID) :=
    ⟨fun a b => Int.le_total a.vehicleID b.vehicleID⟩
  haveI : IsTrans Vehicle (fun a b => a.vehicleID ≤ b.vehicleID) :=
    ⟨fun a b c hab hbc => le_trans hab hbc⟩
  exact List.sorted_insertionSort _ xs

/-! ## Claim theorems -/

/-- Claim C1, counterexample: an error injected at the `allTotal`
aggregate-count stage does not make `GetVehicles` fail — the call
still succeeds and returns metadata, with the errored aggregate
reported as `0` while the other stages' values are present.  So the
claim "an error at any of the three aggregate-count stages yields an
error and no metadata" is false on the code. -/
theorem c1_counterexample :
    aggErrStore.allTotalErr = true
    ∧ getVehicles aggErrStore noFilters =
        .ok ([demoV1], ⟨1, 1, 10, 1, 0, 1, 0, 0⟩) :=
  ⟨rfl, rfl⟩

/-- Claim C1, amended: a store error at the count or fetch stage makes
`GetVehicles` return an error and no metadata; errors at the three
aggregate-count stages are silently dropped — the call still succeeds
and the affected aggregate fields are reported as `0`. -/
theorem c1_error_propagation (st : Store) (f : VehicleFilters) :
    (st.countErr = true → getVehicles st f = .error "failed to count vehicles")
    ∧ (st.countErr = false → st.fetchErr = true →
        getVehicles st f = .error "failed to fetch vehicles")
    ∧ (st.countErr = false → st.fetchErr = false →
        exceptIsOk (getVehicles st f) = true)
    ∧ (∀ vs md, getVehicles st f = .ok (vs, md) →
        (st.allTotalErr = true → md.allTotal = 0)
        ∧ (st.totalNewErr = true → md.totalNewVehicles = 0)
        ∧ (st.totalUsedErr = true → md.totalUsedVehicles = 0)) := by
  refine ⟨?_, ?_, ?_, ?_⟩
  · intro hc
    simp [getVehicles, hc]
  · intro hc hf
    simp [getVehicles, hc, hf]
  · intro hc hf
    simp [getVehicles, hc, hf, exceptIsOk]
  · intro vs md h
    obtain ⟨hc, hf, hvs, hmd⟩ := getVehicles_ok h
    subst hmd
    refine ⟨?_, ?_, ?_⟩ <;> intro hflag <;> simp [hflag]

/-- Witness for the amended C1: a count-stage error fails the call,
while an aggregate-stage error still yields success. -/
theorem c1_error_propagation_witness :
    getVehicles countErrStore noFilters = .error "failed to count vehicles"
    ∧ exceptIsOk (getVehicles aggErrStore noFilters) = true :=
  ⟨(c1_error_propagation countErrStore noFilters).1 rfl,
   (c1_error_propagation aggErrStore noFilters).2.2.1 rfl rfl⟩

/-- Claim C2: for `resultsPerPage ≥ 1`, the returned `lastPage` equals
the matching-row total divided by `resultsPerPage` with a remainder
bump, and the formula yields `4` at total 36 / per-page 10 and `0` at
total 0. -/
theorem c2_lastPage (st : Store) (f : VehicleFilters) (vs : List Vehicle)
    (md : ResponseMetadata) (hr : 1 ≤ f.resultsPerPage)
    (h : getVehicles st f = .ok (vs, md)) :
    md.lastPage = md.total / f.resultsPerPage.toNat
      + (if md.total % f.resultsPerPage.toNat > 0 then 1 else 0)
    ∧ lastPageCalc 36 10 = 4 ∧ lastPageCalc 0 10 = 0 := by
  obtain ⟨hc, hf, hvs, hmd⟩ := getVehicles_ok h
  subst hmd
  refine ⟨?_, by decide, by decide⟩
  simp only [effectivePerPage_of_ge hr, lastPageCalc]

/-- Witness for C2 at a concrete three-row store with two results per
page: `lastPage` is `3 / 2 + 1 = 2`. -/
theorem c2_lastPage_witness :
    pagedMeta.lastPage = pagedMeta.total / pagedFilters.resultsPerPage.toNat
      + (if pagedMeta.total % pagedFilters.resultsPerPage.toNat > 0 then 1 else 0)
    ∧ lastPageCalc 36 10 = 4 ∧ lastPageCalc 0 10 = 0 :=
  c2_lastPage demoStore pagedFilters pagedData pagedMeta (by decide) rfl

/-- Claim C3, counterexample: at page `2^57 + 1` with 100 results per
page — values the handler's validation accepts — the 64-bit offset
multiplication wraps negative, GORM drops the `OFFSET` clause, and
`GetVehicles` returns the first rows of the sorted matching set, while
the slice at the claimed offset `(page−1)·resultsPerPage` is empty.
So the claim, which asserts the slice shape for every `page ≥ 1` and
`resultsPerPage ≥ 1`, is false on the code. -/
theorem c3_counterexample :
    (1 : Int) ≤ hugeFilters.page ∧ (1 : Int) ≤ hugeFilters.resultsPerPage
    ∧ getVehicles demoStore hugeFilters =
        .ok ([demoV2, demoV1, demoV3], ⟨2 ^ 57 + 1, 1, 100, 3, 3, 1, 2, 0⟩)
    ∧ ((sortByVehicleId (demoStore.rows.filter (vehicleMatches hugeFilters))).drop
          ((hugeFilters.page - 1) * hugeFilters.resultsPerPage).toNat).take
        hugeFilters.resultsPerPage.toNat = [] :=
  ⟨by decide, by decide, rfl, rfl⟩

/-- Claim C3, amended: for `page ≥ 1` and `resultsPerPage ≥ 1` whose
product `(page−1)·resultsPerPage` fits in a signed 64-bit int, the
returned records are the contiguous slice starting at offset
`(page−1)·resultsPerPage`, of length at most `resultsPerPage`, of the
matching rows sorted ascending by the external source id
`vehicle_id`; the sorted sequence is a permutation of the matching
rows and is ordered by `vehicleID`, not by the internal id.  (When the
product overflows, the offset wraps — see the counterexample — and the
clamped offset yields the first rows instead.) -/
theorem c3_page_slice (st : Store) (f : VehicleFilters) (vs : List Vehicle)
    (md : ResponseMetadata) (hp : 1 ≤ f.page) (hr : 1 ≤ f.resultsPerPage)
    (hm : (f.page - 1) * f.resultsPerPage ≤ 2 ^ 63 - 1)
    (h : getVehicles st f = .ok (vs, md)) :
    vs = ((sortByVehicleId (st.rows.filter (vehicleMatches f))).drop
        ((f.page - 1) * f.resultsPerPage).toNat).take f.resultsPerPage.toNat
    ∧ vs.length ≤ f.resultsPerPage.toNat
    ∧ (sortByVehicleId (st.rows.filter (vehicleMatches f))).Perm
        (st.rows.filter (vehicleMatches f))
    ∧ (sortByVehicleId (st.rows.filter (vehicleMatches f))).Pairwise
        (fun a b => a.vehicleID ≤ b.vehicleID) := by
  obtain ⟨hc, hf, hvs, hmd⟩ := getVehicles_ok h
  have hoff : pageOffset f = (f.page - 1) * f.resultsPerPage := pageOffset_eq hp hr hm
  have hpp : effectivePerPage f = f.resultsPerPage := effectivePerPage_of_ge hr
  subst hvs
  refine ⟨by rw [hoff, hpp], ?_, sortByVehicleId_perm _, sortByVehicleId_sorted _⟩
  rw [hpp]
  exact List.length_take_le _ _

/-- Witness for the amended C3 at a concrete store: the first page of
two records is within the per-page bound. -/
theorem c3_page_slice_witness :
    pagedData.length ≤ pagedFilters.resultsPerPage.toNat :=
  (c3_page_slice demoStore pagedFilters pagedData pagedMeta
    (by decide) (by decide) (by decide) rfl).2.1

/-- Claim C4: when the four bound fields are unset, a record matches
the active predicates exactly when it satisfies the spec's six
string-field conditions: classification (unless absent or `"all"`),
exact case-insensitive make / fuel type / transmission / body type,
case-insensitive substring containment on model; an absent field
imposes no constraint. -/
theorem c4_string_predicates (f : VehicleFilters) (v : Vehicle) (hb : boundsUnset f) :
    vehicleMatches f v = true ↔ specFieldMatch f v := by
  rw [vehicleMatches_iff]
  obtain ⟨h1, h2, h3, h4⟩ := hb
  exact ⟨fun h => h.1, fun h => ⟨h, Or.inl h1, Or.inl h2, Or.inl h3, Or.inl h4⟩⟩

/-- Witness for C4: the empty filter matches any record. -/
theorem c4_string_predicates_witness :
    vehicleMatches noFilters demoV1 = true :=
  (c4_string_predicates noFilters demoV1
      ⟨Or.inl rfl, Or.inl rfl, Or.inl rfl, Or.inl rfl⟩).mpr
    ⟨Or.inl rfl, Or.inl rfl, Or.inl rfl, Or.inl rfl, Or.inl rfl, Or.inl rfl⟩

/-- Claim C5: the four bound fields behave per the spec — `""` and
`"0"` mean unset, otherwise the stored text is cast to an integer and
compared with inclusive min and inclusive max; and concretely
min 5000 / max 10000 excludes a `"4799.00"` record and includes a
`"7500.00"` one. -/
theorem c5_bound_predicates :
    (∀ (f : VehicleFilters) (v : Vehicle),
      vehicleMatches f v = true ↔ (specFieldMatch f v ∧ specBoundsMatch f v))
    ∧ vehicleMatches priceFilter cheapVehicle = false
    ∧ vehicleMatches priceFilter midVehicle = true := by
  refine ⟨vehicleMatches_iff, ?_, ?_⟩ <;> decide

/-- Claim C6: the three aggregate counts are computed from the
unfiltered store, so they agree across any two requests against the
same store; `totalNew + totalUsed ≤ allTotal`, with equality exactly
when every row is classified (case-insensitively) new or used. -/
theorem c6_aggregate_invariance (st : Store) (f1 f2 : VehicleFilters)
    (vs1 vs2 : List Vehicle) (md1 md2 : ResponseMetadata)
    (hA : st.allTotalErr = false) (hN : st.totalNewErr = false)
    (hU : st.totalUsedErr = false)
    (h1 : getVehicles st f1 = .ok (vs1, md1))
    (h2 : getVehicles st f2 = .ok (vs2, md2)) :
    md1.allTotal = md2.allTotal
    ∧ md1.totalNewVehicles = md2.totalNewVehicles
    ∧ md1.totalUsedVehicles = md2.totalUsedVehicles
    ∧ md1.allTotal = st.rows.length
    ∧ md1.totalNewVehicles = countNew st.rows
    ∧ md1.totalUsedVehicles = countUsed st.rows
    ∧ md1.totalNewVehicles + md1.totalUsedVehicles ≤ md1.allTotal
    ∧ (md1.totalNewVehicles + md1.totalUsedVehicles = md1.allTotal ↔
        ∀ v ∈ st.rows, lowerStr v.advertClassification = "new"
          ∨ lowerStr v.advertClassification = "used") := by
  obtain ⟨_, _, _, hmd1⟩ := getVehicles_ok h1
  obtain ⟨_, _, _, hmd2⟩ := getVehicles_ok h2
  subst hmd1
  subst hmd2
  have hpart := newUsed_partition st.rows
  simp only [hA, hN, hU, Bool.false_eq_true, if_false]
  exact ⟨trivial, trivial, trivial, trivial, trivial, trivial, hpart.1, hpart.2⟩

/-- Witness for C6 at a concrete store: one new and two used rows out
of three. -/
theorem c6_aggregate_invariance_witness :
    pagedMeta.totalNewVehicles + pagedMeta.totalUsedVehicles ≤ pagedMeta.allTotal :=
  (c6_aggregate_invariance demoStore pagedFilters pagedFilters pagedData pagedData
    pagedMeta pagedMeta rfl rfl rfl rfl rfl).2.2.2.2.2.2.1

/-- Claim C7: the list handler replies 400 exactly when the parsed
page is below 1 or the parsed results-per-page is outside `[1, 100]`;
an absent or unparseable `page` / `results_per_page` value silently
falls back to its default instead of erroring. -/
theorem c7_handler_validation (st : Store) (params : List (String × String)) :
    (statusOf (getVehiclesHandler st params) = 400 ↔
      (parseIntQuery params "page" 1 < 1
        ∨ parseIntQuery params "results_per_page" 10 < 1
        ∨ parseIntQuery params "results_per_page" 10 > 100))
    ∧ (∀ (key : String) (d : Int),
        queryLookup params key = "" ∨ goAtoi (queryLookup params key) = none →
          parseIntQuery params key d = d) := by
  constructor
  · unfold getVehiclesHandler
    have hpage : (filtersFromQuery params).page = parseIntQuery params "page" 1 := rfl
    have hrpp : (filtersFromQuery params).resultsPerPage
        = parseIntQuery params "results_per_page" 10 := rfl
    by_cases h1 : (filtersFromQuery params).page < 1
    · rw [if_pos h1]
      exact iff_of_true rfl (Or.inl (hpage ▸ h1))
    · rw [if_neg h1]
      by_cases h2 : (filtersFromQuery params).resultsPerPage < 1
          ∨ (filtersFromQuery params).resultsPerPage > 100
      · rw [if_pos h2]
        refine iff_of_true rfl ?_
        rcases h2 with h2 | h2
        · exact Or.inr (Or.inl (hrpp ▸ h2))
        · exact Or.inr (Or.inr (hrpp ▸ h2))
      · rw [if_neg h2]
        have hfalse : ¬(parseIntQuery params "page" 1 < 1
            ∨ parseIntQuery params "results_per_page" 10 < 1
            ∨ parseIntQuery params "results_per_page" 10 > 100) := by
          rw [← hpage, ← hrpp]
          rintro (h | h | h)
          · exact h1 h
          · exact h2 (Or.inl h)
          · exact h2 (Or.inr h)
        cases hres : getVehicles st (filtersFromQuery params) with
        | error e =>
          exact iff_of_false (by simp [statusOf]) hfalse
        | ok pr =>
          obtain ⟨vs, md⟩ := pr
          exact iff_of_false (by simp [statusOf]) hfalse
  · intro key d hkd
    unfold parseIntQuery
    rcases hkd with hk | hk
    · rw [hk]
      simp
    · by_cases he : (queryLookup params key == "") = true
      · simp [he]
      · simp [he, hk]

/-- Witness for C7: a non-numeric `page` value falls back to the
default and does not by itself produce a 400. -/
theorem c7_handler_validation_witness :
    parseIntQuery [("page", "abc")] "page" 1 = 1
    ∧ ¬ statusOf (getVehiclesHandler demoStore [("page", "abc")]) = 400 :=
  ⟨(c7_handler_validation demoStore [("page", "abc")]).2 "page" 1 (Or.inr rfl),
   fun h =>
     absurd ((c7_handler_validation demoStore [("page", "abc")]).1.mp h) (by decide)⟩

/-- Claim C8: fetch-by-id and fetch-by-VRM return the single matching
record (VRM compared case-insensitively); zero matches yield the
distinguished `"vehicle not found"` condition — never a store-failure
condition — and any other store error yields the distinct generic
`"failed to fetch vehicle"` condition. -/
theorem c8_single_lookup (st : Store) (id : Nat) (vrm : String) :
    (st.lookupErr = false →
      (∀ v, st.rows.filter (fun r => r.id == id) = [v] →
          getVehicleByID st id = .ok v)
      ∧ (st.rows.filter (fun r => r.id == id) = [] →
          getVehicleByID st id = .error "vehicle not found")
      ∧ (∀ v, st.rows.filter (fun r => lowerStr r.vrm == lowerStr vrm) = [v] →
          getVehicleByVRM st vrm = .ok v)
      ∧ (st.rows.filter (fun r => lowerStr r.vrm == lowerStr vrm) = [] →
          getVehicleByVRM st vrm = .error "vehicle not found"))
    ∧ (st.lookupErr = true →
        getVehicleByID st id = .error "failed to fetch vehicle"
        ∧ getVehicleByVRM st vrm = .error "failed to fetch vehicle")
    ∧ ("failed to fetch vehicle" : String) ≠ "vehicle not found" := by
  refine ⟨?_, ?_, by decide⟩
  · intro hl
    refine ⟨?_, ?_, ?_, ?_⟩
    · intro v hv
      unfold getVehicleByID
      rw [if_neg (by simp [hl]),
        find?_of_filter_singleton (filter_singleton_of_perm (sortById_perm st.rows) hv)]
    · intro hv
      unfold getVehicleByID
      rw [if_neg (by simp [hl])]
      have hnone : (sortById st.rows).find? (fun v => v.id == id) = none := by
        rw [List.find?_eq_none]
        intro x hx
        exact List.filter_eq_nil_iff.mp hv x ((sortById_perm st.rows).mem_iff.mp hx)
      rw [hnone]
    · intro v hv
      unfold getVehicleByVRM
      rw [if_neg (by simp [hl]),
        find?_of_filter_singleton (filter_singleton_of_perm (sortById_perm st.rows) hv)]
    · intro hv
      unfold getVehicleByVRM
      rw [if_neg (by simp [hl])]
      have hnone : (sortById st.rows).find? (fun v => lowerStr v.vrm == lowerStr vrm) = none := by
        rw [List.find?_eq_none]
        intro x hx
        exact List.filter_eq_nil_iff.mp hv x ((sortById_perm st.rows).mem_iff.mp hx)
      rw [hnone]
  · intro hl
    exact ⟨by unfold getVehicleByID; rw [if_pos hl],
      by unfold getVehicleByVRM; rw [if_pos hl]⟩

/-- Witness for C8: id 2 is found in the demo store; an unknown VRM
yields the not-found condition. -/
theorem c8_single_lookup_witness :
    getVehicleByID demoStore 2 = .ok demoV2
    ∧ getVehicleByVRM demoStore "zz99zzz" = .error "vehicle not found" :=
  ⟨((c8_single_lookup demoStore 2 "zz99zzz").1 rfl).1 demoV2 rfl,
   ((c8_single_lookup demoStore 2 "zz99zzz").1 rfl).2.2.2 rfl⟩

/-- Claim C9: against a store that already holds at least one record,
`SeedDatabase` succeeds, inserts nothing, leaves the rows unchanged,
and never reads the fixture — so a second run after a successful seed
changes nothing. -/
theorem c9_seed_skip (rows : List Vehicle) (fixture : Except String (List Vehicle))
    (h : 0 < rows.length) :
    SeedDatabase rows false fixture = .ok ⟨rows, 0, false⟩ := by
  unfold SeedDatabase
  rw [if_neg (by simp), if_pos h]

/-- Witness for C9: a one-row store is left untouched even when the
fixture is unloadable, because it is never read. -/
theorem c9_seed_skip_witness :
    SeedDatabase [demoV1] false (.error "fixture missing") = .ok ⟨[demoV1], 0, false⟩ :=
  c9_seed_skip [demoV1] (.error "fixture missing") (by decide)

/-- Claim C10, counterexample: the offset is computed in wrapping
64-bit arithmetic, so at page `2^57 + 1` with 100 results per page —
values the handler's validation accepts — the program computes a
negative offset, refuting "the computed offset is never negative". -/
theorem c10_counterexample :
    pageOffset hugeFilters = -4035225266123964416 := by
  decide

/-- Claim C10, amended: `GetVehicles` substitutes page 1 when
`page < 1` and ten results per page when `resultsPerPage < 1` before
computing the offset and `lastPage`; the effective values are at
least 1 and the `lastPage` divisor is never zero, and the computation
succeeds on any filter input when the store reports no error.  The
computed offset is nonnegative whenever the product
`(page−1)·resultsPerPage` fits in a signed 64-bit int; a larger
product wraps, possibly to a negative offset (see the
counterexample). -/
theorem c10_pagination_defaults (f : VehicleFilters) :
    1 ≤ effectivePage f
    ∧ 1 ≤ effectivePerPage f
    ∧ (f.page < 1 → effectivePage f = 1)
    ∧ (1 ≤ f.page → effectivePage f = f.page)
    ∧ (f.resultsPerPage < 1 → effectivePerPage f = 10)
    ∧ (1 ≤ f.resultsPerPage → effectivePerPage f = f.resultsPerPage)
    ∧ ((effectivePage f - 1) * effectivePerPage f ≤ 2 ^ 63 - 1 →
        0 ≤ pageOffset f)
    ∧ (effectivePerPage f).toNat ≠ 0
    ∧ (∀ st : Store, st.countErr = false → st.fetchErr = false →
        exceptIsOk (getVehicles st f) = true) := by
  have h1 : 1 ≤ effectivePage f := by unfold effectivePage; split <;> omega
  have h2 : 1 ≤ effectivePerPage f := by unfold effectivePerPage; split <;> omega
  refine ⟨h1, h2, ?_, ?_, ?_, ?_, ?_, ?_, ?_⟩
  · intro h
    unfold effectivePage
    rw [if_pos h]
  · exact fun h => effectivePage_of_ge h
  · intro h
    unfold effectivePerPage
    rw [if_pos h]
  · exact fun h => effectivePerPage_of_ge h
  · intro hm
    rw [pageOffset_eq_of_small f hm]
    exact mul_nonneg (by omega) (by omega)
  · omega
  · intro st hc hf
    simp [getVehicles, hc, hf, exceptIsOk]

/-- Witness for the amended C10 at page `-5` and zero results per
page: the defaults kick in, the small-product offset is nonnegative,
and the query still succeeds. -/
theorem c10_pagination_defaults_witness :
    effectivePage badFilters = 1 ∧ effectivePerPage badFilters = 10
    ∧ 0 ≤ pageOffset badFilters
    ∧ exceptIsOk (getVehicles demoStore badFilters) = true :=
  ⟨(c10_pagination_defaults badFilters).2.2.1 (by decide),
   (c10_pagination_defaults badFilters).2.2.2.2.1 (by decide),
   (c10_pagination_defaults badFilters).2.2.2.2.2.2.1 (by decide),
   (c10_pagination_defaults badFilters).2.2.2.2.2.2.2.2 demoStore rfl rfl⟩

end VehiclesApi
